import Mathlib

/-!
Shallow embedding of the policy-gated execution orchestrator: the
session memory store (memory_manager.py), the sequential tool
execution pipeline and orchestration flow (root.py), and the policy
filter retry protocol (filter.py).  External oracle calls (the
generative planner and validator) are modelled as inputs supplied in
an environment record, database rows are modelled as a list of
records, and instants are natural numbers (the stored ISO8601 strings
of a fixed format compare exactly like instants).
-/

namespace TheGroundedOne

/-- Retry limit, config_template.py line 100 (FILTER_MAX_RETRIES = 3). -/
def FILTER_MAX_RETRIES : Nat := 3

/-- User-consent flag for retries, config_template.py line 101. -/
def FILTER_REQUIRE_USER_CONSENT : Bool := true

/-- Memory feature flag, config_template.py line 231. -/
def MEMORY_ENABLED : Bool := true

/-- Session TTL, config_template.py line 232 (12 hours). -/
def MEMORY_DURATION_HOURS : Nat := 12

/-- History bound, config_template.py line 239 (keep last 5). -/
def MAX_CONVERSATION_HISTORY : Nat := 5

/-- One conversation-history entry, as appended in MemoryManager.remember. -/
structure HistoryEntry where
  timestamp : Nat
  action : String
  patientId : Option String
  clinicianId : Option String
deriving DecidableEq

/-- One row of the session_memory table (memory_manager.py _create_tables). -/
structure SessionRecord where
  sessionId : String
  clinicianId : Option String
  lastPatientId : Option String
  lastAction : Option String
  conversationHistory : List HistoryEntry
  createdAt : Nat
  expiresAt : Nat
deriving DecidableEq

/-- The session_memory table: a list of rows. -/
abbrev MemStore := List SessionRecord

/-- Row predicate of the WHERE session_id = ? clauses. -/
def sessionKey (session_id : String) (r : SessionRecord) : Bool :=
  r.sessionId == session_id

/-- History entry built at memory_manager.py lines 115 and 146. -/
def entry_of (now : Nat) (patient_id clinician_id : Option String) (action : String) :
    HistoryEntry :=
  { timestamp := now, action := action, patientId := patient_id, clinicianId := clinician_id }

/-- Truncation of memory_manager.py lines 123-124: keep only the last
MAX_CONVERSATION_HISTORY entries when the bound is exceeded. -/
def truncate_history (h : List HistoryEntry) : List HistoryEntry :=
  if MAX_CONVERSATION_HISTORY < h.length then h.drop (h.length - MAX_CONVERSATION_HISTORY)
  else h

/-- MemoryManager.remember (memory_manager.py lines 85-174): sliding-expiry
upsert with COALESCE field-preserving merge on the UPDATE path and a plain
INSERT when the session id is absent. -/
def MemoryManager.remember (now : Nat) (st : MemStore) (session_id : String)
    (patient_id clinician_id action : Option String) : Bool × MemStore :=
  let expires_at := now + MEMORY_DURATION_HOURS
  match st.find? (sessionKey session_id) with
  | some existing =>
    let new_history :=
      match action with
      | some a =>
        truncate_history (existing.conversationHistory ++ [entry_of now patient_id clinician_id a])
      | none => existing.conversationHistory
    (true, st.map (fun r =>
      if sessionKey session_id r then
        { r with
          clinicianId := clinician_id.or r.clinicianId,
          lastPatientId := patient_id.or r.lastPatientId,
          lastAction := action.or r.lastAction,
          conversationHistory := new_history,
          expiresAt := expires_at }
      else r))
  | none =>
    let new_history :=
      match action with
      | some a => [entry_of now patient_id clinician_id a]
      | none => []
    (true, st ++ [{ sessionId := session_id, clinicianId := clinician_id,
                    lastPatientId := patient_id, lastAction := action,
                    conversationHistory := new_history, createdAt := now,
                    expiresAt := expires_at }])

/-- MemoryManager.recall (memory_manager.py lines 176-211): SELECT with
WHERE session_id = ? AND expires_at > now; a pure read, the table is
returned unchanged. -/
def MemoryManager.recall (now : Nat) (st : MemStore) (session_id : String) :
    Option SessionRecord × MemStore :=
  (st.find? (fun r => sessionKey session_id r && decide (now < r.expiresAt)), st)

/-- MemoryManager.forget (memory_manager.py lines 213-228): DELETE WHERE
session_id = ?, then return True whatever the number of deleted rows. -/
def MemoryManager.forget (st : MemStore) (session_id : String) : Bool × MemStore :=
  (true, st.filter (fun r => !(sessionKey session_id r)))

/-- MemoryManager.forget with the surrounding try/except of the source: a
storage-layer fault is caught, logged and reported as False with the table
left as it was (the transaction is never committed). -/
def MemoryManager.forget_with_fault (storage_fault : Bool) (st : MemStore)
    (session_id : String) : Bool × MemStore :=
  if storage_fault then (false, st) else MemoryManager.forget st session_id

/-- MemoryManager.cleanup_expired_sessions (memory_manager.py lines 258-282):
DELETE WHERE expires_at < now, returning the affected row count. -/
def MemoryManager.cleanup_expired_sessions (now : Nat) (st : MemStore) : Nat × MemStore :=
  let remaining := st.filter (fun r => !(decide (r.expiresAt < now)))
  (st.length - remaining.length, remaining)

/-- One planned tool call, the JSON objects produced by the planner and
consumed by RootAgent._execute_sequence. -/
structure PlannedStep where
  tool : String
  params : List (String × String)
deriving DecidableEq

/-- One tool result dict: success flag, the consent-check denial flag when
present, and an error message when present. -/
structure StepResult where
  success : Bool
  consentGranted : Option Bool := none
  error : Option String := none
deriving DecidableEq

/-- The tool registry of RootAgent._register_tools: a map from tool names
to optional functions from parameters to results.  A tool raising an exception
is already folded into the result value, mirroring the try/except of
RootAgent._execute_sequence that converts any fault into success False. -/
abbrev Registry := String → Option (List (String × String) → StepResult)

/-- Dictionary read on a parameter map. -/
def lookup_param (ps : List (String × String)) (k : String) : Option String :=
  (ps.find? (fun kv => kv.1 == k)).map (fun kv => kv.2)

/-- Dictionary write on a parameter map. -/
def set_param (ps : List (String × String)) (k v : String) : List (String × String) :=
  if (ps.find? (fun kv => kv.1 == k)).isSome then
    ps.map (fun kv => if kv.1 == k then (k, v) else kv)
  else ps ++ [(k, v)]

/-- Parameter normalization of root.py lines 310-315: the audit-logging tool
gets the current session token substituted when token_id is absent or holds
one of the recognized placeholders. -/
def normalize_step (token : String) (step : PlannedStep) : PlannedStep :=
  if step.tool == "log_access_to_audit_trail" then
    match lookup_param step.params ("token_id") with
    | none => { step with params := set_param step.params ("token_id") token }
    | some v =>
      if v == "SESSION_TOKEN" || v == "TOKEN" then
        { step with params := set_param step.params ("token_id") token }
      else step
  else step

/-- One iteration body of RootAgent._execute_sequence: registry lookup, a
missing tool becoming a failed result, and invocation on normalized
parameters. -/
def exec_step (tools : Registry) (token : String) (step : PlannedStep) : StepResult :=
  match tools step.tool with
  | none => { success := false, error := some ("Tool not found") }
  | some f => f (normalize_step token step).params

/-- Consent-denial early stop of root.py line 326: the consent-check tool
reporting consent_granted False (an absent flag counts as granted). -/
def consent_denied (tool : String) (r : StepResult) : Bool :=
  tool == "check_patient_consent_status" && !(r.consentGranted.getD true)

/-- A step result halting the pipeline: failure, or consent denial on an
otherwise successful consent check. -/
def step_stops (s : PlannedStep) (r : StepResult) : Bool :=
  if r.success then consent_denied s.tool r else true

/-- RootAgent._execute_sequence (root.py lines 293-336): run steps in order,
append every produced result, halt after the first failing or
consent-denying step. -/
def execute_sequence (tools : Registry) (token : String) : List PlannedStep → List StepResult
  | [] => []
  | s :: rest =>
    let r := exec_step tools token s
    if r.success then
      if consent_denied s.tool r then [r]
      else r :: execute_sequence tools token rest
    else [r]

/-- The mutable counters of a FilterAgent instance (filter.py lines 74-77).
The source exposes one process-wide instance through get_filter_agent, so
one value of this state is threaded through every orchestrated request. -/
structure FilterState where
  violationCount : Nat
  retryCount : Nat
deriving DecidableEq

/-- Counter state of a freshly constructed FilterAgent; get_filter_agent
returns the single process-wide instance built once from this state. -/
def initialFilterState : FilterState := { violationCount := 0, retryCount := 0 }

/-- The validation dict produced by the oracle and consumed by the gate.
Absent JSON fields are the defaults (a missing Boolean reads as False via
dict.get).  retryFlag models the synthetic retry True entry the root agent
attaches after executing a corrected sequence. -/
structure ValidationResult where
  valid : Bool
  violationType : Option String := none
  severity : Option String := none
  explanation : Option String := none
  correctedSequence : Option (List PlannedStep) := none
  allowRetry : Bool := false
  requiresUserConsent : Bool := false
  retryFlag : Bool := false
deriving DecidableEq

/-- Return dict of FilterAgent.handle_retry. -/
structure RetryOutcome where
  allowRetry : Bool
  correctedRequest : Option (List PlannedStep)
  reason : Option String
deriving DecidableEq

/-- Python truthiness of an optional sequence: None and the empty list are
both falsy, so only a nonempty corrected sequence counts as obtained. -/
def nonEmptySeq : Option (List PlannedStep) → Option (List PlannedStep)
  | some (s :: rest) => some (s :: rest)
  | _ => none

/-- FilterAgent.handle_retry (filter.py lines 340-393).  The correction
argument stands for the outcome of the generate_corrected_sequence oracle
call; the severity check precedes the budget check, and only a granted
retry increments the shared retry counter. -/
def FilterAgent.handle_retry (severity : Option String)
    (correction : Option (List PlannedStep)) (st : FilterState) :
    RetryOutcome × FilterState :=
  if severity.getD ("error") == "critical" then
    ({ allowRetry := false, correctedRequest := none,
       reason := some ("Critical violations cannot be retried. Requires admin review.") }, st)
  else if FILTER_MAX_RETRIES ≤ st.retryCount then
    ({ allowRetry := false, correctedRequest := none,
       reason := some ("Maximum retry attempts (3) exceeded.") }, st)
  else
    match nonEmptySeq correction with
    | none =>
      ({ allowRetry := false, correctedRequest := none,
         reason := some ("Unable to generate valid correction.") }, st)
    | some c =>
      ({ allowRetry := true, correctedRequest := some c, reason := none },
       { st with retryCount := st.retryCount + 1 })

/-- Observable effects of one orchestrated request: memory reads and
writes with the key used, oracle validation and correction calls, and
pipeline executions. -/
inductive Event where
  | recallMemory (key : String)
  | validatePlanned (seq : List PlannedStep)
  | correctionRequest
  | execute (seq : List PlannedStep)
  | validateExecuted (seq : List PlannedStep) (results : List StepResult)
  | rememberMemory (key : String)
deriving DecidableEq

def isExecuteEv : Event → Bool
  | Event.execute _ => true
  | _ => false

def isValidatePlannedEv : Event → Bool
  | Event.validatePlanned _ => true
  | _ => false

def isValidateExecutedEv : Event → Bool
  | Event.validateExecuted _ _ => true
  | _ => false

def isCorrectionEv : Event → Bool
  | Event.correctionRequest => true
  | _ => false

/-- Return dict of RootAgent.process_request. -/
structure Response where
  success : Bool
  error : Option String := none
  violationInfo : Option ValidationResult := none
  sessionToken : Option String := none
  executedSequence : Option (List PlannedStep) := none
  results : Option (List StepResult) := none
  validation : Option ValidationResult := none
deriving DecidableEq

/-- RootAgent._format_response (root.py lines 370-379). -/
def format_response (token : Option String) (seq : List PlannedStep)
    (results : List StepResult) (validation : ValidationResult) : Response :=
  { success := results.all (fun r => r.success) && validation.valid,
    sessionToken := token,
    executedSequence := some seq,
    results := some results,
    validation := some validation }

/-- RootAgent._error_response (root.py lines 381-387). -/
def error_response (token : Option String) (msg : String)
    (vinfo : Option ValidationResult) : Response :=
  { success := false, error := some msg, violationInfo := vinfo, sessionToken := token }

/-- Everything one request receives from outside pure control flow: token
generation, the clock, and the four oracle interactions (plan, pre- and
post-validation, correction) together with the interactive consent answer
and the tool registry. -/
structure OracleEnv where
  tokenOk : Bool
  token : String
  now : Nat
  userQuery : String
  plan : Option (List PlannedStep)
  validation : ValidationResult
  userConsent : Bool
  correction : Option (List PlannedStep)
  postValidation : ValidationResult
  tools : Registry

/-- Result of one orchestrated request: the response dict, the (shared)
filter counters afterwards, the memory table afterwards, and the trace of
observable events in order. -/
structure ProcOut where
  response : Response
  filterSt : FilterState
  memory : MemStore
  events : List Event

/-- The corrected-sequence selection of RootAgent._handle_retry (root.py
lines 349-356): take the corrected sequence attached to the validation
result when that is truthy, otherwise fall back to
FilterAgent.handle_retry.  The Boolean records whether the fallback oracle
path was taken. -/
def root_corrected (v : ValidationResult) (fallback : Option (List PlannedStep))
    (st : FilterState) : Option (List PlannedStep) × FilterState × Bool :=
  match nonEmptySeq v.correctedSequence with
  | some c => (some c, st, false)
  | none =>
    let outcome := FilterAgent.handle_retry v.severity fallback st
    (outcome.1.correctedRequest, outcome.2, true)

/-- RootAgent._handle_retry (root.py lines 338-368): optional user consent,
corrected-sequence selection, then direct execution of the corrected
sequence with a synthetic valid/retry validation attached.  Note that
neither validate_planned_execution nor validate_execution_result is called
here, and session memory is not updated. -/
def RootAgent.handle_retry (env : OracleEnv) (tok : String) (v : ValidationResult)
    (st : FilterState) (mem : MemStore) (events : List Event) : ProcOut :=
  if FILTER_REQUIRE_USER_CONSENT && !env.userConsent then
    { response := error_response (some tok) ("User declined retry") (some v),
      filterSt := st, memory := mem, events := events }
  else
    let picked := root_corrected v env.correction st
    let events2 := events ++ (if picked.2.2 then [Event.correctionRequest] else [])
    match picked.1 with
    | none =>
      { response := error_response (some tok) ("Unable to generate corrected sequence") none,
        filterSt := picked.2.1, memory := mem, events := events2 }
    | some c =>
      { response := format_response (some tok) c (execute_sequence env.tools tok c)
          { valid := true, retryFlag := true },
        filterSt := picked.2.1, memory := mem,
        events := events2 ++ [Event.execute c] }

/-- RootAgent.process_request (root.py lines 149-287): mint the trace
token, recall session memory keyed by that token when an id is missing,
plan, validate (counting a violation on the shared filter state), then
either execute with advisory post-validation and a memory update, enter
the retry handler, or reject with the violation details. -/
def RootAgent.process_request (env : OracleEnv) (st0 : FilterState) (mem0 : MemStore)
    (clinician_id0 patient_id0 : Option String) : ProcOut :=
  if !env.tokenOk then
    { response := error_response none ("Failed to generate session token") none,
      filterSt := st0, memory := mem0, events := [] }
  else
    let tok := env.token
    let doRecall := MEMORY_ENABLED && (patient_id0.isNone || clinician_id0.isNone)
    let recalled := if doRecall then (MemoryManager.recall env.now mem0 tok).1 else none
    let events1 : List Event := if doRecall then [Event.recallMemory tok] else []
    let patient_id :=
      match recalled with
      | some r => patient_id0.or r.lastPatientId
      | none => patient_id0
    let clinician_id :=
      match recalled with
      | some r => clinician_id0.or r.clinicianId
      | none => clinician_id0
    match env.plan with
    | none =>
      { response := error_response (some tok) ("Agent failed to generate a valid plan") none,
        filterSt := st0, memory := mem0, events := events1 }
    | some plan =>
      let v := env.validation
      let st1 := if v.valid then st0
                 else { violationCount := st0.violationCount + 1, retryCount := st0.retryCount }
      let events2 := events1 ++ [Event.validatePlanned plan]
      if v.valid then
        let results := execute_sequence env.tools tok plan
        let doRemember := MEMORY_ENABLED && patient_id.isSome && clinician_id.isSome
        let mem1 := if doRemember then
            (MemoryManager.remember env.now mem0 tok patient_id clinician_id
              (some env.userQuery)).2
          else mem0
        { response := format_response (some tok) plan results env.postValidation,
          filterSt := st1, memory := mem1,
          events := events2 ++ [Event.execute plan, Event.validateExecuted plan results]
            ++ (if doRemember then [Event.rememberMemory tok] else []) }
      else if v.allowRetry then
        RootAgent.handle_retry env tok v st1 mem0 events2
      else
        { response := error_response (some tok)
            ("Policy violation: " ++ v.explanation.getD ("None")) (some v),
          filterSt := st1, memory := mem0, events := events2 }

/-- Default step used only to state indexed properties via getD. -/
def defaultStep : PlannedStep := { tool := "", params := [] }

/-- Default result used only to state indexed properties via getD. -/
def defaultResult : StepResult := { success := false }

/-- Suffix of the last n elements of a list, in order. -/
def lastN (n : Nat) (l : List α) : List α := l.drop (l.length - n)

/-- One history-appending remember call for the history-bound statement. -/
structure RememberCall where
  now : Nat
  patientId : Option String
  clinicianId : Option String
  action : String
deriving DecidableEq

/-- History entry a given call appends. -/
def callEntry (c : RememberCall) : HistoryEntry :=
  entry_of c.now c.patientId c.clinicianId c.action

/-- Fold a list of history-appending remember calls over the store. -/
def applyCalls (st : MemStore) (session_id : String) (calls : List RememberCall) : MemStore :=
  calls.foldl
    (fun s c =>
      (MemoryManager.remember c.now s session_id c.patientId c.clinicianId (some c.action)).2)
    st

/-- A demonstration row used by concrete instances below. -/
def demoRecord : SessionRecord :=
  { sessionId := "S1", clinicianId := some ("DR_0001"), lastPatientId := some ("PT_0001"),
    lastAction := none, conversationHistory := [], createdAt := 0, expiresAt := 5 }

/-- Six history appends against the five-entry bound. -/
def callsSix : List RememberCall :=
  [{ now := 1, patientId := none, clinicianId := none, action := "a1" },
   { now := 2, patientId := none, clinicianId := none, action := "a2" },
   { now := 3, patientId := none, clinicianId := none, action := "a3" },
   { now := 4, patientId := none, clinicianId := none, action := "a4" },
   { now := 5, patientId := none, clinicianId := none, action := "a5" },
   { now := 6, patientId := none, clinicianId := none, action := "a6" }]

/-- Registry and plan for the pipeline scenarios: the second step fails. -/
def toolsDemo : Registry := fun name =>
  if name == "ok_tool" then some (fun _ => { success := true })
  else if name == "bad_tool" then
    some (fun _ => { success := false, error := some ("boom") })
  else none

def planDemo : List PlannedStep :=
  [{ tool := "ok_tool", params := [] }, { tool := "bad_tool", params := [] },
   { tool := "ok_tool", params := [] }]

/-- Memory-recall event block of process_request (the events1 binding). -/
def recall_events (env : OracleEnv) (clinician_id0 patient_id0 : Option String) : List Event :=
  if MEMORY_ENABLED && (patient_id0.isNone || clinician_id0.isNone) then
    [Event.recallMemory env.token]
  else []

/-- Recalled record of process_request step 2. -/
def recalled_of (env : OracleEnv) (mem0 : MemStore)
    (clinician_id0 patient_id0 : Option String) : Option SessionRecord :=
  if MEMORY_ENABLED && (patient_id0.isNone || clinician_id0.isNone) then
    (MemoryManager.recall env.now mem0 env.token).1
  else none

/-- Patient id after the context-recall merge. -/
def merged_patient (patient_id0 : Option String) (recalled : Option SessionRecord) :
    Option String :=
  match recalled with
  | some r => patient_id0.or r.lastPatientId
  | none => patient_id0

/-- Clinician id after the context-recall merge. -/
def merged_clinician (clinician_id0 : Option String) (recalled : Option SessionRecord) :
    Option String :=
  match recalled with
  | some r => clinician_id0.or r.clinicianId
  | none => clinician_id0

/-- A minimal verification step reused by the concrete scenarios. -/
def stepVerify : PlannedStep :=
  { tool := "verify_clinician_credentials", params := [("clinician_id", "DR_0001")] }

/-- Registry whose tools all succeed, for the concrete scenarios. -/
def toolsAllOk : Registry := fun _ => some (fun _ => { success := true })

/-- Critical validation result that nevertheless grants a retry and ships
its own corrected sequence, as the free-form oracle may produce. -/
def criticalValidation : ValidationResult :=
  { valid := false, violationType := some ("bulk_access"), severity := some ("critical"),
    explanation := some ("Bulk access attempt"), correctedSequence := some [stepVerify],
    allowRetry := true, requiresUserConsent := true }

def envCritical : OracleEnv :=
  { tokenOk := true, token := "HIPAA_AB12_20250101120000", now := 0,
    userQuery := "access record", plan := some [stepVerify],
    validation := criticalValidation, userConsent := true, correction := none,
    postValidation := { valid := true }, tools := toolsAllOk }

/-- Invalid retryable validation with no corrected sequence attached, so
the root agent falls back to the filter retry protocol. -/
def retryableValidation : ValidationResult :=
  { valid := false, violationType := some ("sequence_violation"),
    severity := some ("error"), explanation := some ("Skipped consent check"),
    correctedSequence := none, allowRetry := true, requiresUserConsent := true }

def envRetry : OracleEnv :=
  { tokenOk := true, token := "HIPAA_CD34_20250101120000", now := 0,
    userQuery := "access record", plan := some [stepVerify],
    validation := retryableValidation, userConsent := true,
    correction := some [stepVerify],
    postValidation := { valid := true }, tools := toolsAllOk }

/-- Invalid validation carrying its own corrected sequence, entering the
retry path without the fallback oracle call. -/
def correctedValidation : ValidationResult :=
  { valid := false, violationType := some ("sequence_violation"),
    severity := some ("error"), explanation := some ("Skipped consent check"),
    correctedSequence := some [stepVerify], allowRetry := true,
    requiresUserConsent := true }

def envCorrected : OracleEnv :=
  { envRetry with validation := correctedValidation, correction := none }

/-- Filter counters left behind by one orchestrated request; composing
this models successive requests all served by the process-wide singleton
filter agent. -/
def filterStateAfter (env : OracleEnv) (st : FilterState) : FilterState :=
  (RootAgent.process_request env st [] (some ("DR_0001")) (some ("PT_0001"))).filterSt

/-- Shared filter counters after three unrelated requests that each
consumed one retry. -/
def stExhausted : FilterState :=
  filterStateAfter envRetry
    (filterStateAfter envRetry (filterStateAfter envRetry initialFilterState))

/-- Environment with a valid plan, for the memory-keying scenario. -/
def envValidPlan : OracleEnv :=
  { tokenOk := true, token := "HIPAA_EF56_20250101120000", now := 100,
    userQuery := "access record", plan := some [stepVerify],
    validation := { valid := true }, userConsent := true, correction := none,
    postValidation := { valid := true }, tools := toolsAllOk }

/-- An alive continuing-session row a caller would expect to be recalled. -/
def contRecord : SessionRecord :=
  { sessionId := "CONT_1", clinicianId := some ("DR_0001"),
    lastPatientId := some ("PT_0042"), lastAction := none,
    conversationHistory := [], createdAt := 0, expiresAt := 200 }

theorem find?_session_map (st : MemStore) (session_id : String)
    (f : SessionRecord → SessionRecord) (hf : ∀ r, (f r).sessionId = r.sessionId) :
    (st.map (fun r => if sessionKey session_id r then f r else r)).find? (sessionKey session_id)
      = (st.find? (sessionKey session_id)).map f := by
  induction st with
  | nil => rfl
  | cons r rest ih =>
    by_cases h : sessionKey session_id r = true
    · have hfr : sessionKey session_id (f r) = true := by
        simp only [sessionKey] at h ⊢
        rw [hf]
        exact h
      simp [List.find?_cons, h, hfr]
    · have h' : sessionKey session_id r = false := by simpa using h
      simp [List.find?_cons, h', ih]

theorem lastN_all (n : Nat) (l : List α) (h : l.length ≤ n) : lastN n l = l := by
  unfold lastN
  rw [Nat.sub_eq_zero_of_le h, List.drop_zero]

theorem lastN_length_le (n : Nat) (l : List α) : (lastN n l).length ≤ n := by
  unfold lastN
  rw [List.length_drop]
  omega

theorem lastN_length_of_le (n : Nat) (l : List α) (h : n ≤ l.length) :
    (lastN n l).length = n := by
  unfold lastN
  rw [List.length_drop]
  omega

theorem lastN_append_one (n : Nat) (xs : List α) (e : α) :
    lastN n (lastN n xs ++ [e]) = lastN n (xs ++ [e]) := by
  rcases Nat.le_total xs.length n with h | h
  · rw [lastN_all n xs h]
  · unfold lastN
    rw [List.length_append, List.length_drop, List.length_append]
    simp only [List.length_cons, List.length_nil]
    have h1 : xs.length - (xs.length - n) = n := by omega
    rw [h1]
    have h2 : n + (0 + 1) - n = 1 := by omega
    rw [h2]
    cases n with
    | zero =>
      rw [Nat.sub_zero, List.drop_length]
      have h3 : (xs ++ [e]).length ≤ xs.length + (0 + 1) - 0 := by
        simp
      rw [List.drop_eq_nil_of_le h3]
      rfl
    | succ m =>
      have h4 : 1 ≤ (xs.drop (xs.length - (m + 1))).length := by
        rw [List.length_drop]
        omega
      rw [List.drop_append_of_le_length h4, List.drop_drop]
      have h5 : xs.length + (0 + 1) - (m + 1) = xs.length - (m + 1) + 1 := by omega
      rw [h5]
      have h6 : xs.length - (m + 1) + 1 ≤ xs.length := by omega
      rw [List.drop_append_of_le_length h6]

theorem truncate_history_eq_lastN (h : List HistoryEntry) :
    truncate_history h = lastN MAX_CONVERSATION_HISTORY h := by
  unfold truncate_history lastN
  split
  · rfl
  · next hle =>
    rw [Nat.sub_eq_zero_of_le (Nat.le_of_not_lt hle), List.drop_zero]

/-- Effect of remember on a store already holding the session id: every
matching row is merged with COALESCE semantics and the first matching row
is what a later lookup returns. -/
theorem remember_found (now : Nat) (st : MemStore) (session_id : String)
    (p c a : Option String) (r0 : SessionRecord)
    (h : st.find? (sessionKey session_id) = some r0) :
    (MemoryManager.remember now st session_id p c a).2.find? (sessionKey session_id)
      = some { r0 with
          clinicianId := c.or r0.clinicianId,
          lastPatientId := p.or r0.lastPatientId,
          lastAction := a.or r0.lastAction,
          conversationHistory :=
            match a with
            | some x => truncate_history (r0.conversationHistory ++ [entry_of now p c x])
            | none => r0.conversationHistory,
          expiresAt := now + MEMORY_DURATION_HOURS } := by
  simp only [MemoryManager.remember, h]
  rw [find?_session_map st session_id
      (fun r => { r with
          clinicianId := c.or r.clinicianId,
          lastPatientId := p.or r.lastPatientId,
          lastAction := a.or r.lastAction,
          conversationHistory :=
            match a with
            | some x => truncate_history (r0.conversationHistory ++ [entry_of now p c x])
            | none => r0.conversationHistory,
          expiresAt := now + MEMORY_DURATION_HOURS })
      (fun r => rfl), h]
  rfl

/-- Effect of remember on a store not yet holding the session id: a fresh
row is inserted and found by a later lookup. -/
theorem remember_fresh (now : Nat) (st : MemStore) (session_id : String)
    (p c a : Option String) (h : st.find? (sessionKey session_id) = none) :
    (MemoryManager.remember now st session_id p c a).2.find? (sessionKey session_id)
      = some { sessionId := session_id, clinicianId := c, lastPatientId := p,
               lastAction := a,
               conversationHistory :=
                 match a with
                 | some x => [entry_of now p c x]
                 | none => [],
               createdAt := now, expiresAt := now + MEMORY_DURATION_HOURS } := by
  simp only [MemoryManager.remember, h]
  rw [List.find?_append, h]
  simp [sessionKey]

/-- Invariant carried through a run of history-appending remember calls:
the stored history stays the lastN slice of everything appended so far. -/
theorem applyCalls_history (session_id : String) (calls : List RememberCall) :
    ∀ (st : MemStore) (r0 : SessionRecord) (acc : List HistoryEntry),
      st.find? (sessionKey session_id) = some r0 →
      r0.conversationHistory = lastN MAX_CONVERSATION_HISTORY acc →
      ∃ r, (applyCalls st session_id calls).find? (sessionKey session_id) = some r
        ∧ r.conversationHistory
            = lastN MAX_CONVERSATION_HISTORY (acc ++ calls.map callEntry) := by
  induction calls with
  | nil =>
    intro st r0 acc h hh
    exact ⟨r0, by simpa [applyCalls] using h, by simpa using hh⟩
  | cons c cs ih =>
    intro st r0 acc h hh
    have hstep := remember_found c.now st session_id c.patientId c.clinicianId
      (some c.action) r0 h
    have hh2 : truncate_history
          (r0.conversationHistory ++ [entry_of c.now c.patientId c.clinicianId c.action])
        = lastN MAX_CONVERSATION_HISTORY (acc ++ [callEntry c]) := by
      rw [hh, truncate_history_eq_lastN, callEntry]
      exact lastN_append_one MAX_CONVERSATION_HISTORY acc
        (entry_of c.now c.patientId c.clinicianId c.action)
    obtain ⟨r, hr, hrh⟩ := ih _ _ (acc ++ [callEntry c]) hstep hh2
    refine ⟨r, ?_, ?_⟩
    · simpa [applyCalls] using hr
    · rw [hrh, List.append_assoc]
      rfl

/-- C8: for every session, the stored conversation history never exceeds
the configured bound (5 in config_template.py), and after at least that
many history-appending remember calls it equals exactly the last 5
appended entries in original append order. -/
theorem c8_history_bound (st : MemStore) (session_id : String) (calls : List RememberCall)
    (hfresh : st.find? (sessionKey session_id) = none) (hne : calls ≠ []) :
    ∃ r, (applyCalls st session_id calls).find? (sessionKey session_id) = some r
      ∧ r.conversationHistory = lastN MAX_CONVERSATION_HISTORY (calls.map callEntry)
      ∧ r.conversationHistory.length ≤ MAX_CONVERSATION_HISTORY
      ∧ (MAX_CONVERSATION_HISTORY ≤ calls.length →
          r.conversationHistory.length = MAX_CONVERSATION_HISTORY) := by
  cases calls with
  | nil => exact absurd rfl hne
  | cons c cs =>
    have h1 := remember_fresh c.now st session_id c.patientId c.clinicianId
      (some c.action) hfresh
    have hh1 : ([entry_of c.now c.patientId c.clinicianId c.action] : List HistoryEntry)
        = lastN MAX_CONVERSATION_HISTORY [callEntry c] := by
      rw [lastN_all]
      · rfl
      · simp [MAX_CONVERSATION_HISTORY]
    obtain ⟨r, hr, hrh⟩ := applyCalls_history session_id cs _ _ [callEntry c] h1 hh1
    have hrh2 : r.conversationHistory
        = lastN MAX_CONVERSATION_HISTORY ((c :: cs).map callEntry) := by
      simpa using hrh
    refine ⟨r, ?_, hrh2, ?_, ?_⟩
    · simpa [applyCalls] using hr
    · rw [hrh2]
      exact lastN_length_le _ _
    · intro hge
      rw [hrh2]
      apply lastN_length_of_le
      rw [List.length_map]
      exact hge

/-- C7: a remember call whose optional field is absent keeps the prior
stored value: after remember(id, clinician := C, action := A) then
remember(id, patient := P) the stored clinician is still C. -/
theorem c7_field_preserving_merge (st : MemStore) (session_id C A P : String)
    (n1 n2 : Nat) :
    ∃ r : SessionRecord,
      ((MemoryManager.remember n2
          (MemoryManager.remember n1 st session_id none (some C) (some A)).2
          session_id (some P) none none).2).find? (sessionKey session_id) = some r
      ∧ r.clinicianId = some C ∧ r.lastPatientId = some P := by
  cases h : st.find? (sessionKey session_id) with
  | some r0 =>
    have h1 := remember_found n1 st session_id none (some C) (some A) r0 h
    have h2 := remember_found n2 _ session_id (some P) none none _ h1
    exact ⟨_, h2, rfl, rfl⟩
  | none =>
    have h1 := remember_fresh n1 st session_id none (some C) (some A) h
    have h2 := remember_found n2 _ session_id (some P) none none _ h1
    exact ⟨_, h2, rfl, rfl⟩

/-- C9: recall answers none exactly when the row is absent or carries
expiresAt at or before the current instant, recall leaves the table
untouched, and the expiry sweep deletes exactly the strictly expired rows
and reports how many it removed. -/
theorem c9_recall_and_sweep (now : Nat) (st : MemStore) (session_id : String) :
    ((MemoryManager.recall now st session_id).1 = none
        ↔ ∀ r ∈ st, r.sessionId = session_id → r.expiresAt ≤ now)
    ∧ (MemoryManager.recall now st session_id).2 = st
    ∧ (∀ r, r ∈ (MemoryManager.cleanup_expired_sessions now st).2
        ↔ r ∈ st ∧ now ≤ r.expiresAt)
    ∧ (MemoryManager.cleanup_expired_sessions now st).1
        = (st.filter (fun r => decide (r.expiresAt < now))).length := by
  refine ⟨?_, rfl, ?_, ?_⟩
  · simp only [MemoryManager.recall]
    rw [List.find?_eq_none]
    constructor
    · intro hall r hr hid
      have hx := hall r hr
      simp [sessionKey, hid] at hx
      omega
    · intro hall r hr
      simp only [sessionKey, Bool.and_eq_true, beq_iff_eq, decide_eq_true_eq, not_and]
      intro hid
      have := hall r hr hid
      omega
  · intro r
    simp only [MemoryManager.cleanup_expired_sessions]
    simp [List.mem_filter, Nat.not_lt]
  · simp only [MemoryManager.cleanup_expired_sessions]
    have hsplit : st.length
        = (st.filter (fun r => decide (r.expiresAt < now))).length
          + (st.filter (fun r => !(decide (r.expiresAt < now)))).length :=
      List.length_eq_length_filter_add _
    omega

/-- C10: forget reports success whether or not a row with the session id
exists, a later recall of that id answers none, and only a storage-layer
fault makes forget report failure. -/
theorem c10_forget (st : MemStore) (session_id : String) (now : Nat)
    (storage_fault : Bool) :
    ((MemoryManager.forget_with_fault storage_fault st session_id).1 = true
        ↔ storage_fault = false)
    ∧ (storage_fault = false →
        (MemoryManager.recall now
          (MemoryManager.forget_with_fault storage_fault st session_id).2
          session_id).1 = none)
    ∧ (st.find? (sessionKey session_id) = none →
        (MemoryManager.forget st session_id).1 = true) := by
  refine ⟨?_, ?_, fun _ => rfl⟩
  · cases storage_fault <;>
      simp [MemoryManager.forget_with_fault, MemoryManager.forget]
  · intro hf
    subst hf
    simp only [MemoryManager.forget_with_fault, MemoryManager.forget, if_neg]
    simp only [MemoryManager.recall]
    rw [List.find?_eq_none]
    intro r hr
    have hmem := List.mem_filter.mp hr
    simp only [sessionKey] at hmem ⊢
    rcases hmem with ⟨_, hk⟩
    simp only [Bool.not_eq_true'] at hk
    simp [hk]

/-- C10 witness: deleting an absent id reports success and a later recall
misses. -/
theorem c10_forget_witness :
    ((MemoryManager.forget_with_fault false [demoRecord] ("S9")).1 = true)
    ∧ (MemoryManager.recall 0
        (MemoryManager.forget_with_fault false [demoRecord] ("S9")).2 ("S9")).1 = none :=
  ⟨(c10_forget [demoRecord] ("S9") 0 false).1.mpr rfl,
   (c10_forget [demoRecord] ("S9") 0 false).2.1 rfl⟩

/-- C9 witness: a row whose expiry equals the clock is invisible to recall
yet not swept, and a strictly expired row is swept and counted. -/
theorem c9_recall_and_sweep_witness :
    ((MemoryManager.recall 5 [demoRecord] ("S1")).1 = none
        ↔ ∀ r ∈ [demoRecord], r.sessionId = "S1" → r.expiresAt ≤ 5)
    ∧ (MemoryManager.cleanup_expired_sessions 5 [demoRecord]).1
        = ([demoRecord].filter (fun r => decide (r.expiresAt < 5))).length :=
  ⟨(c9_recall_and_sweep 5 [demoRecord] ("S1")).1,
   (c9_recall_and_sweep 5 [demoRecord] ("S1")).2.2.2⟩

/-- C8 witness: from an empty table, six appends leave exactly the last
five entries. -/
theorem c8_history_bound_witness :
    ∃ r, (applyCalls [] ("S1") callsSix).find? (sessionKey ("S1")) = some r
      ∧ r.conversationHistory = lastN MAX_CONVERSATION_HISTORY (callsSix.map callEntry)
      ∧ r.conversationHistory.length ≤ MAX_CONVERSATION_HISTORY
      ∧ (MAX_CONVERSATION_HISTORY ≤ callsSix.length →
          r.conversationHistory.length = MAX_CONVERSATION_HISTORY) :=
  c8_history_bound [] ("S1") callsSix rfl (by decide)

theorem execute_sequence_length_pos (tools : Registry) (token : String)
    (s : PlannedStep) (rest : List PlannedStep) :
    1 ≤ (execute_sequence tools token (s :: rest)).length := by
  by_cases hs : (exec_step tools token s).success = true
  · by_cases hd : consent_denied s.tool (exec_step tools token s) = true
    · have hseq : execute_sequence tools token (s :: rest) = [exec_step tools token s] := by
        simp [execute_sequence, hs, hd]
      rw [hseq]
      simp
    · have hseq : execute_sequence tools token (s :: rest)
          = exec_step tools token s :: execute_sequence tools token rest := by
        simp [execute_sequence, hs, hd]
      rw [hseq]
      simp only [List.length_cons]
      omega
  · have hseq : execute_sequence tools token (s :: rest) = [exec_step tools token s] := by
      simp [execute_sequence, hs]
    rw [hseq]
    simp

/-- C2: the pipeline output is the step results of an initial segment of
the plan in input order (so no later step is ever invoked and the output
never outgrows the input), every result before the halt point neither
fails nor denies consent, and when the pipeline stopped early its final
result fails or denies consent. -/
theorem c2_stop_on_first_failure (tools : Registry) (token : String)
    (seq : List PlannedStep) :
    ((execute_sequence tools token seq).length ≤ seq.length)
    ∧ (execute_sequence tools token seq
        = (seq.take (execute_sequence tools token seq).length).map (exec_step tools token))
    ∧ (∀ i, i + 1 < (execute_sequence tools token seq).length →
          step_stops (seq.getD i defaultStep)
            ((execute_sequence tools token seq).getD i defaultResult) = false)
    ∧ ((execute_sequence tools token seq).length < seq.length →
          step_stops (seq.getD ((execute_sequence tools token seq).length - 1) defaultStep)
            ((execute_sequence tools token seq).getD
              ((execute_sequence tools token seq).length - 1) defaultResult) = true) := by
  induction seq with
  | nil =>
    refine ⟨by simp [execute_sequence], by simp [execute_sequence], ?_, ?_⟩
    · intro i hi
      simp [execute_sequence] at hi
    · intro hlt
      simp [execute_sequence] at hlt
  | cons s rest ih =>
    by_cases hs : (exec_step tools token s).success = true
    · by_cases hd : consent_denied s.tool (exec_step tools token s) = true
      · have hseq : execute_sequence tools token (s :: rest) = [exec_step tools token s] := by
          simp [execute_sequence, hs, hd]
        rw [hseq]
        refine ⟨by simp, by simp, ?_, ?_⟩
        · intro i hi
          simp at hi
        · intro _
          simp [step_stops, hs, hd]
      · have hseq : execute_sequence tools token (s :: rest)
            = exec_step tools token s :: execute_sequence tools token rest := by
          simp [execute_sequence, hs, hd]
        rw [hseq]
        obtain ⟨ih1, ih2, ih3, ih4⟩ := ih
        refine ⟨?_, ?_, ?_, ?_⟩
        · simpa using Nat.succ_le_succ ih1
        · simp only [List.length_cons, List.take_succ_cons, List.map_cons]
          rw [← ih2]
        · intro i hi
          cases i with
          | zero =>
            simp only [List.getD_cons_zero]
            simp [step_stops, hs, hd]
          | succ j =>
            simp only [List.getD_cons_succ]
            exact ih3 j (by simpa using hi)
        · intro hlt
          have hlt' : (execute_sequence tools token rest).length < rest.length := by
            simpa using hlt
          have hpos : 1 ≤ (execute_sequence tools token rest).length := by
            cases hrest : rest with
            | nil =>
              rw [hrest] at hlt'
              simp at hlt'
            | cons s2 rest2 =>
              exact execute_sequence_length_pos tools token s2 rest2
          obtain ⟨m, hm⟩ : ∃ m, (execute_sequence tools token rest).length = m + 1 :=
            ⟨(execute_sequence tools token rest).length - 1, by omega⟩
          have hlen : (exec_step tools token s :: execute_sequence tools token rest).length - 1
              = m + 1 := by
            simp [hm]
          rw [hlen]
          simp only [List.getD_cons_succ]
          have := ih4 hlt'
          rw [hm] at this
          simpa using this
    · have hseq : execute_sequence tools token (s :: rest) = [exec_step tools token s] := by
        simp [execute_sequence, hs]
      rw [hseq]
      refine ⟨by simp, by simp, ?_, ?_⟩
      · intro i hi
        simp at hi
      · intro _
        simp [step_stops, hs]

/-- C2 witness: on a three-step plan whose second step fails, the pipeline
conclusions instantiate concretely. -/
theorem c2_stop_on_first_failure_witness :
    ((execute_sequence toolsDemo ("TOK") planDemo).length ≤ planDemo.length)
    ∧ (execute_sequence toolsDemo ("TOK") planDemo
        = (planDemo.take (execute_sequence toolsDemo ("TOK") planDemo).length).map
            (exec_step toolsDemo ("TOK")))
    ∧ (∀ i, i + 1 < (execute_sequence toolsDemo ("TOK") planDemo).length →
          step_stops (planDemo.getD i defaultStep)
            ((execute_sequence toolsDemo ("TOK") planDemo).getD i defaultResult) = false)
    ∧ ((execute_sequence toolsDemo ("TOK") planDemo).length < planDemo.length →
          step_stops
            (planDemo.getD
              ((execute_sequence toolsDemo ("TOK") planDemo).length - 1) defaultStep)
            ((execute_sequence toolsDemo ("TOK") planDemo).getD
              ((execute_sequence toolsDemo ("TOK") planDemo).length - 1) defaultResult)
            = true) :=
  c2_stop_on_first_failure toolsDemo ("TOK") planDemo

theorem handle_retry_declined (env : OracleEnv) (tok : String) (v : ValidationResult)
    (st : FilterState) (mem : MemStore) (events : List Event)
    (hc : env.userConsent = false) :
    RootAgent.handle_retry env tok v st mem events
      = { response := error_response (some tok) ("User declined retry") (some v),
          filterSt := st, memory := mem, events := events } := by
  simp [RootAgent.handle_retry, hc, FILTER_REQUIRE_USER_CONSENT]

theorem handle_retry_granted_some (env : OracleEnv) (tok : String) (v : ValidationResult)
    (st : FilterState) (mem : MemStore) (events : List Event) (c : List PlannedStep)
    (hc : env.userConsent = true)
    (hcor : (root_corrected v env.correction st).1 = some c) :
    RootAgent.handle_retry env tok v st mem events
      = { response := format_response (some tok) c (execute_sequence env.tools tok c)
            { valid := true, retryFlag := true },
          filterSt := (root_corrected v env.correction st).2.1, memory := mem,
          events := events
            ++ (if (root_corrected v env.correction st).2.2 then
                  [Event.correctionRequest] else [])
            ++ [Event.execute c] } := by
  simp [RootAgent.handle_retry, hc, FILTER_REQUIRE_USER_CONSENT, hcor]

theorem handle_retry_granted_none (env : OracleEnv) (tok : String) (v : ValidationResult)
    (st : FilterState) (mem : MemStore) (events : List Event)
    (hc : env.userConsent = true)
    (hcor : (root_corrected v env.correction st).1 = none) :
    RootAgent.handle_retry env tok v st mem events
      = { response := error_response (some tok) ("Unable to generate corrected sequence") none,
          filterSt := (root_corrected v env.correction st).2.1, memory := mem,
          events := events
            ++ (if (root_corrected v env.correction st).2.2 then
                  [Event.correctionRequest] else []) } := by
  simp [RootAgent.handle_retry, hc, FILTER_REQUIRE_USER_CONSENT, hcor]

theorem process_request_invalid (env : OracleEnv) (st0 : FilterState) (mem0 : MemStore)
    (clinician_id0 patient_id0 : Option String) (p : List PlannedStep)
    (hTok : env.tokenOk = true) (hPlan : env.plan = some p)
    (hInvalid : env.validation.valid = false) :
    RootAgent.process_request env st0 mem0 clinician_id0 patient_id0
      = (if env.validation.allowRetry then
          RootAgent.handle_retry env env.token env.validation
            { violationCount := st0.violationCount + 1, retryCount := st0.retryCount }
            mem0 (recall_events env clinician_id0 patient_id0 ++ [Event.validatePlanned p])
        else
          { response := error_response (some env.token)
              ("Policy violation: " ++ env.validation.explanation.getD ("None"))
              (some env.validation),
            filterSt := { violationCount := st0.violationCount + 1,
                          retryCount := st0.retryCount },
            memory := mem0,
            events := recall_events env clinician_id0 patient_id0
              ++ [Event.validatePlanned p] }) := by
  simp [RootAgent.process_request, recall_events, hTok, hPlan, hInvalid]

theorem process_request_valid (env : OracleEnv) (st0 : FilterState) (mem0 : MemStore)
    (clinician_id0 patient_id0 : Option String) (p : List PlannedStep)
    (hTok : env.tokenOk = true) (hPlan : env.plan = some p)
    (hValid : env.validation.valid = true) :
    RootAgent.process_request env st0 mem0 clinician_id0 patient_id0
      = { response := format_response (some env.token) p
            (execute_sequence env.tools env.token p) env.postValidation,
          filterSt := st0,
          memory :=
            if MEMORY_ENABLED
                && (merged_patient patient_id0
                    (recalled_of env mem0 clinician_id0 patient_id0)).isSome
                && (merged_clinician clinician_id0
                    (recalled_of env mem0 clinician_id0 patient_id0)).isSome then
              (MemoryManager.remember env.now mem0 env.token
                (merged_patient patient_id0 (recalled_of env mem0 clinician_id0 patient_id0))
                (merged_clinician clinician_id0
                  (recalled_of env mem0 clinician_id0 patient_id0))
                (some env.userQuery)).2
            else mem0,
          events := recall_events env clinician_id0 patient_id0
            ++ [Event.validatePlanned p]
            ++ [Event.execute p,
                Event.validateExecuted p (execute_sequence env.tools env.token p)]
            ++ (if MEMORY_ENABLED
                  && (merged_patient patient_id0
                      (recalled_of env mem0 clinician_id0 patient_id0)).isSome
                  && (merged_clinician clinician_id0
                      (recalled_of env mem0 clinician_id0 patient_id0)).isSome then
                  [Event.rememberMemory env.token]
                else []) } := by
  simp [RootAgent.process_request, recall_events, recalled_of, merged_patient,
    merged_clinician, hTok, hPlan, hValid]

theorem recall_events_countP_execute (env : OracleEnv) (c0 p0 : Option String) :
    (recall_events env c0 p0).countP isExecuteEv = 0 := by
  unfold recall_events
  split
  · rfl
  · rfl

theorem recall_events_countP_ve (env : OracleEnv) (c0 p0 : Option String) :
    (recall_events env c0 p0).countP isValidateExecutedEv = 0 := by
  unfold recall_events
  split
  · rfl
  · rfl

theorem recall_events_countP_vp (env : OracleEnv) (c0 p0 : Option String) :
    (recall_events env c0 p0).countP isValidatePlannedEv = 0 := by
  unfold recall_events
  split
  · rfl
  · rfl

theorem recall_events_countP_corr (env : OracleEnv) (c0 p0 : Option String) :
    (recall_events env c0 p0).countP isCorrectionEv = 0 := by
  unfold recall_events
  split
  · rfl
  · rfl

theorem if_correction_countP_execute (b : Bool) :
    (if b then [Event.correctionRequest] else []).countP isExecuteEv = 0 := by
  cases b <;> rfl

theorem if_correction_countP_ve (b : Bool) :
    (if b then [Event.correctionRequest] else []).countP isValidateExecutedEv = 0 := by
  cases b <;> rfl

theorem if_correction_countP_vp (b : Bool) :
    (if b then [Event.correctionRequest] else []).countP isValidatePlannedEv = 0 := by
  cases b <;> rfl

theorem if_correction_countP_self (b : Bool) :
    (if b then [Event.correctionRequest] else []).countP isCorrectionEv ≤ 1 := by
  cases b <;> decide

theorem if_remember_countP_ve (b : Bool) (k : String) :
    (if b then [Event.rememberMemory k] else []).countP isValidateExecutedEv = 0 := by
  cases b <;> rfl

theorem root_corrected_critical (v : ValidationResult) (fb : Option (List PlannedStep))
    (st : FilterState) (hcrit : v.severity = some ("critical"))
    (hnone : nonEmptySeq v.correctedSequence = none) :
    root_corrected v fb st = (none, st, true) := by
  simp [root_corrected, hnone, FilterAgent.handle_retry, hcrit]

/-- C1 counterexample: a pre-execution ValidationResult with severity
critical, allow_retry true and an attached corrected sequence is not
rejected by the gate: the corrected sequence is executed and the request
even reports success, with retry budget untouched concerns aside. -/
theorem c1_counterexample :
    ((RootAgent.process_request envCritical initialFilterState []
        (some ("DR_0001")) (some ("PT_0001"))).response.success = true)
    ∧ (Event.execute [stepVerify]
        ∈ (RootAgent.process_request envCritical initialFilterState []
            (some ("DR_0001")) (some ("PT_0001"))).events) := by
  decide

/-- C1 amended: a critical-severity validation ends rejected with no
execution whenever it does not itself couple allow_retry true with a
nonempty corrected sequence; in particular the filter agent fallback never
grants a critical retry, regardless of the remaining retry budget (the
filter counters st0 are arbitrary). -/
theorem c1_critical_rejected (env : OracleEnv) (st0 : FilterState) (mem0 : MemStore)
    (clinician_id0 patient_id0 : Option String) (p : List PlannedStep)
    (hTok : env.tokenOk = true) (hPlan : env.plan = some p)
    (hInvalid : env.validation.valid = false)
    (hCrit : env.validation.severity = some ("critical"))
    (hNoc : env.validation.allowRetry = false
        ∨ nonEmptySeq env.validation.correctedSequence = none) :
    ((RootAgent.process_request env st0 mem0 clinician_id0 patient_id0).response.success
        = false)
    ∧ ((RootAgent.process_request env st0 mem0 clinician_id0
          patient_id0).response.error.isSome = true)
    ∧ ((RootAgent.process_request env st0 mem0 clinician_id0 patient_id0).response.results
        = none)
    ∧ ((RootAgent.process_request env st0 mem0 clinician_id0
          patient_id0).events.countP isExecuteEv = 0) := by
  rw [process_request_invalid env st0 mem0 clinician_id0 patient_id0 p hTok hPlan hInvalid]
  by_cases har : env.validation.allowRetry = true
  · rw [if_pos har]
    by_cases hc : env.userConsent = true
    · have hnone : nonEmptySeq env.validation.correctedSequence = none := by
        rcases hNoc with h | h
        · rw [har] at h
          exact absurd h (by simp)
        · exact h
      have hrc := root_corrected_critical env.validation env.correction
        { violationCount := st0.violationCount + 1, retryCount := st0.retryCount }
        hCrit hnone
      rw [handle_retry_granted_none env env.token env.validation _ mem0 _ hc
        (by rw [hrc])]
      refine ⟨rfl, rfl, rfl, ?_⟩
      simp [List.countP_append, recall_events_countP_execute,
        if_correction_countP_execute, List.countP_cons, isExecuteEv]
    · have hc' : env.userConsent = false := by
        simpa using hc
      rw [handle_retry_declined env env.token env.validation _ mem0 _ hc']
      refine ⟨rfl, rfl, rfl, ?_⟩
      simp [List.countP_append, recall_events_countP_execute, List.countP_cons,
        isExecuteEv]
  · rw [if_neg har]
    refine ⟨rfl, rfl, rfl, ?_⟩
    simp [List.countP_append, recall_events_countP_execute, List.countP_cons, isExecuteEv]

/-- Critical validation without a usable corrected sequence, for the C1
amended witness. -/
def criticalBareValidation : ValidationResult :=
  { valid := false, violationType := some ("bulk_access"), severity := some ("critical"),
    explanation := some ("Bulk access attempt"), correctedSequence := none,
    allowRetry := true, requiresUserConsent := true }

def envCriticalBare : OracleEnv :=
  { envCritical with validation := criticalBareValidation, correction := some [stepVerify] }

/-- C1 amended witness: a concrete critical violation with full retry
budget remaining is rejected without execution. -/
theorem c1_critical_rejected_witness :
    ((RootAgent.process_request envCriticalBare initialFilterState []
        (some ("DR_0001")) (some ("PT_0001"))).response.success = false)
    ∧ ((RootAgent.process_request envCriticalBare initialFilterState []
          (some ("DR_0001")) (some ("PT_0001"))).response.error.isSome = true)
    ∧ ((RootAgent.process_request envCriticalBare initialFilterState []
          (some ("DR_0001")) (some ("PT_0001"))).response.results = none)
    ∧ ((RootAgent.process_request envCriticalBare initialFilterState []
          (some ("DR_0001")) (some ("PT_0001"))).events.countP isExecuteEv = 0) :=
  c1_critical_rejected envCriticalBare initialFilterState []
    (some ("DR_0001")) (some ("PT_0001")) [stepVerify] rfl rfl rfl rfl (Or.inr rfl)

/-- C3 counterexample: the retry budget lives on the process-wide filter
singleton, so three unrelated requests that each consumed one retry leave
a fourth, identical request rejected for exhausted budget, while the same
request served from a fresh process succeeds. -/
theorem c3_counterexample :
    ((RootAgent.process_request envRetry stExhausted []
        (some ("DR_0001")) (some ("PT_0001"))).response.error
        = some ("Unable to generate corrected sequence"))
    ∧ ((RootAgent.process_request envRetry initialFilterState []
          (some ("DR_0001")) (some ("PT_0001"))).response.error = none)
    ∧ stExhausted.retryCount = FILTER_MAX_RETRIES := by
  decide

/-- C3 amended: retry counters are fields of the single process-wide
FilterAgent instance shared by every request: each granted retry
increments the shared counter, and once it reaches FILTER_MAX_RETRIES any
request routed through the fallback correction path is refused with the
exhausted-budget reason, regardless of which requests consumed the
budget. -/
theorem c3_shared_retry_budget (st : FilterState) (severity : Option String)
    (correction : Option (List PlannedStep))
    (hsev : (severity.getD ("error") == "critical") = false) :
    (FILTER_MAX_RETRIES ≤ st.retryCount →
        ((FilterAgent.handle_retry severity correction st).1.allowRetry = false
        ∧ (FilterAgent.handle_retry severity correction st).1.reason
            = some ("Maximum retry attempts (3) exceeded.")))
    ∧ (∀ c, st.retryCount < FILTER_MAX_RETRIES → nonEmptySeq correction = some c →
        ((FilterAgent.handle_retry severity correction st).2.retryCount = st.retryCount + 1
        ∧ (FilterAgent.handle_retry severity correction st).1.allowRetry = true)) := by
  constructor
  · intro hmax
    simp [FilterAgent.handle_retry, hsev, hmax]
  · intro c hlt hne
    simp [FilterAgent.handle_retry, hsev, hne, Nat.not_le.mpr hlt]

/-- C3 amended witness: with the shared counter already at the limit, a
well-formed non-critical retry request is refused for budget exhaustion. -/
theorem c3_shared_retry_budget_witness :
    (FILTER_MAX_RETRIES ≤ (FilterState.mk 3 3).retryCount →
        ((FilterAgent.handle_retry (some ("error")) (some [stepVerify])
            (FilterState.mk 3 3)).1.allowRetry = false
        ∧ (FilterAgent.handle_retry (some ("error")) (some [stepVerify])
            (FilterState.mk 3 3)).1.reason
            = some ("Maximum retry attempts (3) exceeded.")))
    ∧ (∀ c, (FilterState.mk 3 3).retryCount < FILTER_MAX_RETRIES →
        nonEmptySeq (some [stepVerify]) = some c →
        ((FilterAgent.handle_retry (some ("error")) (some [stepVerify])
            (FilterState.mk 3 3)).2.retryCount = (FilterState.mk 3 3).retryCount + 1
        ∧ (FilterAgent.handle_retry (some ("error")) (some [stepVerify])
            (FilterState.mk 3 3)).1.allowRetry = true)) :=
  c3_shared_retry_budget (FilterState.mk 3 3) (some ("error")) (some [stepVerify])
    (by decide)

/-- C4: when pre-execution validation fails, retry is allowed, consent is
given and a corrected sequence is obtained, the corrected sequence is
executed exactly once without being re-validated (one validatePlanned
call in the whole request, at most one correction request, the execute
event is the final action), and its results are returned as produced even
when they contain failures. -/
theorem c4_single_shot_correction (env : OracleEnv) (st0 : FilterState) (mem0 : MemStore)
    (clinician_id0 patient_id0 : Option String) (p c : List PlannedStep)
    (hTok : env.tokenOk = true) (hPlan : env.plan = some p)
    (hInvalid : env.validation.valid = false)
    (hAllow : env.validation.allowRetry = true)
    (hConsent : env.userConsent = true)
    (hCorr : (root_corrected env.validation env.correction
        { violationCount := st0.violationCount + 1, retryCount := st0.retryCount }).1
        = some c) :
    ((RootAgent.process_request env st0 mem0 clinician_id0
        patient_id0).events.countP isValidatePlannedEv = 1)
    ∧ ((RootAgent.process_request env st0 mem0 clinician_id0
          patient_id0).events.countP isExecuteEv = 1)
    ∧ ((RootAgent.process_request env st0 mem0 clinician_id0
          patient_id0).events.countP isCorrectionEv ≤ 1)
    ∧ ((RootAgent.process_request env st0 mem0 clinician_id0
          patient_id0).events.getLast? = some (Event.execute c))
    ∧ ((RootAgent.process_request env st0 mem0 clinician_id0
          patient_id0).response.executedSequence = some c)
    ∧ ((RootAgent.process_request env st0 mem0 clinician_id0
          patient_id0).response.results
        = some (execute_sequence env.tools env.token c)) := by
  rw [process_request_invalid env st0 mem0 clinician_id0 patient_id0 p hTok hPlan hInvalid]
  rw [if_pos hAllow]
  rw [handle_retry_granted_some env env.token env.validation _ mem0 _ c hConsent hCorr]
  refine ⟨?_, ?_, ?_, ?_, rfl, rfl⟩
  · simp [List.countP_append, recall_events_countP_vp, if_correction_countP_vp,
      List.countP_cons, isValidatePlannedEv]
  · simp [List.countP_append, recall_events_countP_execute, if_correction_countP_execute,
      List.countP_cons, isExecuteEv]
  · have h1 := recall_events_countP_corr env clinician_id0 patient_id0
    have h2 := if_correction_countP_self
      ((root_corrected env.validation env.correction
        { violationCount := st0.violationCount + 1, retryCount := st0.retryCount }).2.2)
    simp only [List.countP_append, h1, List.countP_cons, isCorrectionEv]
    simp
    omega
  · exact List.getLast?_concat _

/-- C4 witness: a validation-supplied corrected sequence is executed once
and returned. -/
theorem c4_single_shot_correction_witness :
    ((RootAgent.process_request envCorrected initialFilterState []
        (some ("DR_0001")) (some ("PT_0001"))).events.countP isValidatePlannedEv = 1)
    ∧ ((RootAgent.process_request envCorrected initialFilterState []
          (some ("DR_0001")) (some ("PT_0001"))).events.countP isExecuteEv = 1)
    ∧ ((RootAgent.process_request envCorrected initialFilterState []
          (some ("DR_0001")) (some ("PT_0001"))).events.countP isCorrectionEv ≤ 1)
    ∧ ((RootAgent.process_request envCorrected initialFilterState []
          (some ("DR_0001")) (some ("PT_0001"))).events.getLast?
        = some (Event.execute [stepVerify]))
    ∧ ((RootAgent.process_request envCorrected initialFilterState []
          (some ("DR_0001")) (some ("PT_0001"))).response.executedSequence
        = some [stepVerify])
    ∧ ((RootAgent.process_request envCorrected initialFilterState []
          (some ("DR_0001")) (some ("PT_0001"))).response.results
        = some (execute_sequence envCorrected.tools envCorrected.token [stepVerify])) :=
  c4_single_shot_correction envCorrected initialFilterState []
    (some ("DR_0001")) (some ("PT_0001")) [stepVerify] [stepVerify]
    rfl rfl rfl rfl rfl rfl

/-- C5 counterexample: after a retry the corrected sequence is executed
yet validate_execution_result is never called, contradicting the claim
that post-execution validation runs after every execution. -/
theorem c5_counterexample :
    (Event.execute [stepVerify]
        ∈ (RootAgent.process_request envCorrected initialFilterState []
            (some ("DR_0001")) (some ("PT_0001"))).events)
    ∧ ((RootAgent.process_request envCorrected initialFilterState []
          (some ("DR_0001")) (some ("PT_0001"))).events.countP isValidateExecutedEv
        = 0) := by
  decide

/-- C5 amended: post-execution validation runs exactly once, directly
after execution, on the ordinary (pre-validation passed) path, where it is
advisory: the execution results are surfaced unchanged whatever the
post-validation verdict.  On every path where pre-validation failed,
including the corrected-sequence retry path, validate_execution_result is
never invoked. -/
theorem c5_advisory_post_validation (env : OracleEnv) (st0 : FilterState) (mem0 : MemStore)
    (clinician_id0 patient_id0 : Option String) (p : List PlannedStep)
    (hTok : env.tokenOk = true) (hPlan : env.plan = some p) :
    (env.validation.valid = true →
        ((∃ pre post, (RootAgent.process_request env st0 mem0 clinician_id0
            patient_id0).events
            = pre ++ [Event.execute p,
                Event.validateExecuted p (execute_sequence env.tools env.token p)] ++ post)
        ∧ ((RootAgent.process_request env st0 mem0 clinician_id0
              patient_id0).events.countP isValidateExecutedEv = 1)
        ∧ ((RootAgent.process_request env st0 mem0 clinician_id0
              patient_id0).response.validation = some env.postValidation)
        ∧ ((RootAgent.process_request env st0 mem0 clinician_id0
              patient_id0).response.results
            = some (execute_sequence env.tools env.token p))))
    ∧ (env.validation.valid = false →
        (RootAgent.process_request env st0 mem0 clinician_id0
          patient_id0).events.countP isValidateExecutedEv = 0) := by
  constructor
  · intro hValid
    rw [process_request_valid env st0 mem0 clinician_id0 patient_id0 p hTok hPlan hValid]
    refine ⟨⟨recall_events env clinician_id0 patient_id0 ++ [Event.validatePlanned p],
      _, rfl⟩, ?_, rfl, rfl⟩
    simp [List.countP_append, recall_events_countP_ve, if_remember_countP_ve,
      List.countP_cons, isValidateExecutedEv]
    intro a _ _ _ ha
    subst ha
    rfl
  · intro hInvalid
    rw [process_request_invalid env st0 mem0 clinician_id0 patient_id0 p hTok hPlan
      hInvalid]
    by_cases har : env.validation.allowRetry = true
    · rw [if_pos har]
      by_cases hc : env.userConsent = true
      · cases hcor : (root_corrected env.validation env.correction
            { violationCount := st0.violationCount + 1,
              retryCount := st0.retryCount }).1 with
        | none =>
          rw [handle_retry_granted_none env env.token env.validation _ mem0 _ hc hcor]
          simp [List.countP_append, recall_events_countP_ve, if_correction_countP_ve,
            List.countP_cons, isValidateExecutedEv]
        | some c =>
          rw [handle_retry_granted_some env env.token env.validation _ mem0 _ c hc hcor]
          simp [List.countP_append, recall_events_countP_ve, if_correction_countP_ve,
            List.countP_cons, isValidateExecutedEv]
      · have hc' : env.userConsent = false := by
          simpa using hc
        rw [handle_retry_declined env env.token env.validation _ mem0 _ hc']
        simp [List.countP_append, recall_events_countP_ve, List.countP_cons,
          isValidateExecutedEv]
    · rw [if_neg har]
      simp [List.countP_append, recall_events_countP_ve, List.countP_cons,
        isValidateExecutedEv]

/-- C5 amended witness: a concrete valid-path request runs post-validation
once and surfaces the pipeline results unchanged. -/
theorem c5_advisory_post_validation_witness :
    (envValidPlan.validation.valid = true →
        ((∃ pre post, (RootAgent.process_request envValidPlan initialFilterState []
            (some ("DR_0001")) (some ("PT_0001"))).events
            = pre ++ [Event.execute [stepVerify],
                Event.validateExecuted [stepVerify]
                  (execute_sequence envValidPlan.tools envValidPlan.token [stepVerify])]
              ++ post)
        ∧ ((RootAgent.process_request envValidPlan initialFilterState []
              (some ("DR_0001")) (some ("PT_0001"))).events.countP isValidateExecutedEv
            = 1)
        ∧ ((RootAgent.process_request envValidPlan initialFilterState []
              (some ("DR_0001")) (some ("PT_0001"))).response.validation
            = some envValidPlan.postValidation)
        ∧ ((RootAgent.process_request envValidPlan initialFilterState []
              (some ("DR_0001")) (some ("PT_0001"))).response.results
            = some (execute_sequence envValidPlan.tools envValidPlan.token [stepVerify]))))
    ∧ (envValidPlan.validation.valid = false →
        (RootAgent.process_request envValidPlan initialFilterState []
          (some ("DR_0001")) (some ("PT_0001"))).events.countP isValidateExecutedEv
          = 0) :=
  c5_advisory_post_validation envValidPlan initialFilterState []
    (some ("DR_0001")) (some ("PT_0001")) [stepVerify] rfl rfl

/-- C6: the orchestrator keys session memory by the freshly minted trace
token on both recall and persist.  With an alive continuing-session row
present under the caller-visible id CONT_1, a request missing the patient
id recalls under the fresh token (necessarily missing, so the stored
context is never picked up and nothing is persisted), while a request
with both ids persists under the fresh token, never under a
caller-supplied continuing-session identifier. -/
theorem c6_memory_keyed_by_fresh_token :
    (Event.recallMemory ("HIPAA_EF56_20250101120000")
        ∈ (RootAgent.process_request envValidPlan initialFilterState [contRecord]
            (some ("DR_0001")) none).events)
    ∧ ((RootAgent.process_request envValidPlan initialFilterState [contRecord]
          (some ("DR_0001")) none).memory = [contRecord])
    ∧ ((MemoryManager.recall 100 [contRecord] ("HIPAA_EF56_20250101120000")).1 = none)
    ∧ ((MemoryManager.recall 100 [contRecord] ("CONT_1")).1.isSome = true)
    ∧ (Event.rememberMemory ("HIPAA_EF56_20250101120000")
        ∈ (RootAgent.process_request envValidPlan initialFilterState [contRecord]
            (some ("DR_0001")) (some ("PT_0001"))).events)
    ∧ (((RootAgent.process_request envValidPlan initialFilterState [contRecord]
          (some ("DR_0001")) (some ("PT_0001"))).memory.find?
            (sessionKey ("HIPAA_EF56_20250101120000"))).isSome = true) := by
  decide

end TheGroundedOne
